import Mathlib

/-!
Shallow embedding of the Real Intent → KW Command converter (`src/app.py`).

Conventions of the embedding:
* a pandas cell value is `Option String`: `none` models both a missing
  column and a NaN cell (`pd.isna` true), `some s` a present stringified
  value — the two absent cases are observationally identical in every
  use site of the program (`get_val`, the `pd.isna` guards, and the
  `Sellers` check, where `str(nan).strip().upper() = "NAN" ≠ "X"`);
* Python `str.strip()` is `pyStrip` (drop whitespace from both ends);
* Python `str.isdigit` / `str.upper` are `Char.isDigit` / `pyUpper`
  (`Char.toUpper` on each character);
* the uploaded CSV is an `InputTable`: its header row (`columns`) and its
  records; the body of `main` after a successful upload is `convert`,
  returning `Except` — `Except.error missing` models the `st.error` +
  early-`return` path, `Except.ok rows` the list `output_rows`.
-/

namespace KW

/-- `KW_TEMPLATE_HEADERS` from `src/app.py`: the fixed output schema. -/
def KW_TEMPLATE_HEADERS : List String := [
  "First Name", "Middle Name", "Last Name", "Prefix", "Suffix", "Full Legal Name",
  "About", "Birthday", "Home Anniversary",
  "Cell Phone", "Is Primary? (mark Y)",
  "Home Phone", "Is Primary? (mark Y)",
  "Work Phone", "Is Primary? (mark Y)",
  "Other Phone", "Is Primary? (mark Y)",
  "Personal Email", "Primary? (mark Y)",
  "Work Email", "Primary? (mark Y)",
  "Other Email", "Primary? (mark Y)",
  "Address line one", "Address line two", "City", "State", "Zip code", "Country", "Label", "",
  "Address line one", "Address line two", "City", "State", "Zip code", "Country", "Label", "",
  "Address line one", "Address line two", "City", "State", "Zip code", "Country", "Label", "",
  "Tags", "Source", "Notes",
  "Facebook", "Twitter", "Linkedin", "Pinterest", "Instagram"]

/-- `REQUIRED_COLUMNS` from `src/app.py`. -/
def REQUIRED_COLUMNS : List String := ["first_name", "last_name"]

/-- Python `str.strip()` on the character list: drop whitespace from the
front, then from the back. -/
def pyStripL (l : List Char) : List Char :=
  List.rdropWhile Char.isWhitespace (List.dropWhile Char.isWhitespace l)

/-- Python `str.strip()` on strings. -/
def pyStrip (s : String) : String :=
  List.asString (pyStripL s.data)

/-- Python `str.upper()` on strings: upper-case each character. -/
def pyUpper (s : String) : String :=
  List.asString (s.data.map Char.toUpper)

/-- `format_phone_number` from `src/app.py`:
`if pd.isna: return ""`; `s = str(v).strip()`; keep the digit characters;
ten digits are grouped `AAA-BBB-CCCC`, anything else returns
`s if s else ""`. -/
def format_phone_number (phone_value : Option String) : String :=
  match phone_value with
  | none => ""
  | some v =>
    let s := pyStrip v
    let digits := s.data.filter Char.isDigit
    if digits.length = 10 then
      List.asString (digits.take 3) ++ "-" ++
        List.asString ((digits.drop 3).take 3) ++ "-" ++
        List.asString (digits.drop 6)
    else if s = "" then "" else s

/-- Lookup in the association-list model of the Python dict
`seen : defaultdict(int)`; `none` means the key is absent. -/
def lookupCount : List (String × Nat) → String → Option Nat
  | [], _ => none
  | (k, v) :: rest, h => if k == h then some v else lookupCount rest h

/-- `seen[h] += 1` in the association-list model of the dict. -/
def bumpCount : List (String × Nat) → String → List (String × Nat)
  | [], h => [(h, 1)]
  | (k, v) :: rest, h =>
    if k == h then (k, v + 1) :: rest else (k, v) :: bumpCount rest h

/-- The loop body of `get_unique_headers` from `src/app.py`, with the dict
`seen` made explicit.  The Python `if h in seen` membership test is the
`lookupCount` match; inside it the (dead) `count == 0` branch is kept. -/
def get_unique_headers_go : List String → List (String × Nat) → List String
  | [], _ => []
  | h :: rest, seen =>
    match lookupCount seen h with
    | some count =>
      if count = 0 then h :: get_unique_headers_go rest (bumpCount seen h)
      else (h ++ "." ++ toString count) :: get_unique_headers_go rest (bumpCount seen h)
    | none => h :: get_unique_headers_go rest (bumpCount seen h)

/-- `get_unique_headers` from `src/app.py`. -/
def get_unique_headers (headers : List String) : List String :=
  get_unique_headers_go headers []

/-- `UNIQUE_HEADERS` from `src/app.py`. -/
def UNIQUE_HEADERS : List String := get_unique_headers KW_TEMPLATE_HEADERS

/-- One source record: the cells the converter reads, each an
`Option String` (see the module comment for the `none` convention). -/
structure Record where
  first_name : Option String := none
  last_name : Option String := none
  phone_1 : Option String := none
  phone_2 : Option String := none
  email_1 : Option String := none
  email_2 : Option String := none
  address : Option String := none
  city : Option String := none
  state : Option String := none
  zip_code : Option String := none
  insight : Option String := none
  Sellers : Option String := none

/-- The helper `get_val` from `src/app.py`: empty string for an absent or
NaN cell, otherwise the stripped stringified value. -/
def get_val (v : Option String) : String :=
  match v with
  | none => ""
  | some s => pyStrip s

/-- Step 1 of the loop body of `main` (`src/app.py` lines 101-103): the
name cells. -/
def row_names (r : Record) (rd : List String) : List String :=
  (rd.set 0 (get_val r.first_name)).set 2 (get_val r.last_name)

/-- Step 2 of the loop body of `main` (`src/app.py` lines 105-113): the
phone cells and the primary mark. -/
def row_phones (r : Record) (rd : List String) : List String :=
  let rd2 := match r.phone_1 with
    | some p1 => (rd.set 9 (format_phone_number (some p1))).set 10 "Y"
    | none => rd
  match r.phone_2 with
  | some p2 => rd2.set 11 (format_phone_number (some p2))
  | none => rd2

/-- Step 3 of the loop body of `main` (`src/app.py` lines 115-123): the
email cells and the primary mark. -/
def row_emails (r : Record) (rd : List String) : List String :=
  let rd4 := match r.email_1 with
    | some e1 => (rd.set 17 (pyStrip e1)).set 18 "Y"
    | none => rd
  match r.email_2 with
  | some e2 => rd4.set 19 (pyStrip e2)
  | none => rd4

/-- Step 4 of the loop body of `main` (`src/app.py` lines 125-133): the
first address block, only when `address` is non-empty. -/
def row_address (r : Record) (rd : List String) : List String :=
  let addr := get_val r.address
  if addr ≠ "" then
    (((((rd.set 23 addr).set 25 (get_val r.city)).set 26
        (get_val r.state)).set 27 (get_val r.zip_code)).set 28 "USA").set 29 "Home"
  else rd

/-- The Tags cell of step 5 of the loop body of `main` (`src/app.py`
lines 135-146). -/
def tags_value (custom_tags : String) (r : Record) : String :=
  let tags_list : List String :=
    (if custom_tags ≠ "" then [custom_tags] else []) ++
    (match r.Sellers with
     | some sv => if pyUpper (pyStrip sv) = "X" then ["REAL INTENT.SELLERS"] else []
     | none => [])
  if tags_list ≠ [] then String.intercalate ", " tags_list else ""

/-- Step 5 of the loop body of `main` (`src/app.py` lines 135-149): the
metadata cells. -/
def row_meta (custom_tags source_val : String) (r : Record) (rd : List String) :
    List String :=
  ((rd.set 47 (tags_value custom_tags r)).set 48 source_val).set 49 (get_val r.insight)

/-- The per-record loop body of `main` from `src/app.py`: builds one
output row (`row_data`) for one record, given the two run parameters
`custom_tags` and `source_val`, by applying steps 1-5 to a row of empty
strings. -/
def map_record (custom_tags source_val : String) (r : Record) : List String :=
  row_meta custom_tags source_val r
    (row_address r
      (row_emails r
        (row_phones r
          (row_names r (List.replicate KW_TEMPLATE_HEADERS.length "")))))

/-- Helper for stating the header-disambiguation property: the loop body of
`get_unique_headers` with the dict replaced by a total count function. -/
def goSpec : List String → (String → Nat) → List String
  | [], _ => []
  | h :: rest, cnt =>
    (if cnt h = 0 then h else h ++ "." ++ toString (cnt h)) ::
      goSpec rest (fun x => if x = h then cnt x + 1 else cnt x)

/-- The count a Python `defaultdict(int)` reports for a key. -/
def goCount (seen : List (String × Nat)) (h : String) : Nat :=
  (lookupCount seen h).getD 0

/-- The uploaded CSV after parsing: the header row and the records. -/
structure InputTable where
  columns : List String
  rows : List Record

/-- The conversion path of `main` from `src/app.py` after a file is
uploaded: the required-columns check, then the per-record loop. -/
def convert (custom_tags source_val : String) (t : InputTable) :
    Except (List String) (List (List String)) :=
  let missing := REQUIRED_COLUMNS.filter (fun c => !(t.columns.contains c))
  if missing ≠ [] then Except.error missing
  else Except.ok (t.rows.map (map_record custom_tags source_val))

/-! ### Support lemmas on characters and stripping -/

lemma data_asString (l : List Char) : (List.asString l).data = l := rfl

lemma ws_not_digit {c : Char} (h : c.isWhitespace = true) : c.isDigit = false := by
  simp only [Char.isWhitespace, Bool.or_eq_true, decide_eq_true_eq] at h
  rcases h with ((h | h) | h) | h <;> subst h <;> decide

lemma digit_not_ws {c : Char} (h : c.isDigit = true) : c.isWhitespace = false := by
  cases hw : c.isWhitespace
  · rfl
  · rw [ws_not_digit hw] at h
    exact absurd h (by decide)

lemma takeWhile_append_dropWhile_eq (p : Char → Bool) (l : List Char) :
    l.takeWhile p ++ l.dropWhile p = l := by
  simp

lemma rdropWhile_append_rtakeWhile (p : Char → Bool) (l : List Char) :
    List.rdropWhile p l ++ List.rtakeWhile p l = l := by
  rw [List.rdropWhile, List.rtakeWhile, ← List.reverse_append,
    List.takeWhile_append_dropWhile, List.reverse_reverse]

lemma filter_pyStripL (l : List Char) :
    (pyStripL l).filter Char.isDigit = l.filter Char.isDigit := by
  have h1 : l.filter Char.isDigit =
      (l.takeWhile Char.isWhitespace ++ l.dropWhile Char.isWhitespace).filter Char.isDigit := by
    rw [takeWhile_append_dropWhile_eq]
  have h2 : l.dropWhile Char.isWhitespace =
      pyStripL l ++ List.rtakeWhile Char.isWhitespace (l.dropWhile Char.isWhitespace) :=
    (rdropWhile_append_rtakeWhile _ _).symm
  have ht : (l.takeWhile Char.isWhitespace).filter Char.isDigit = [] := by
    rw [List.filter_eq_nil_iff]
    intro a ha
    simpa using ws_not_digit (List.mem_takeWhile_imp ha)
  have hr : (List.rtakeWhile Char.isWhitespace (l.dropWhile Char.isWhitespace)).filter
      Char.isDigit = [] := by
    rw [List.filter_eq_nil_iff]
    intro a ha
    simpa using ws_not_digit (List.mem_rtakeWhile_imp ha)
  rw [h1, List.filter_append, ht, List.nil_append, h2, List.filter_append, hr,
    List.append_nil]

lemma dropWhile_pyStripL (l : List Char) :
    (pyStripL l).dropWhile Char.isWhitespace = pyStripL l := by
  rcases hps : pyStripL l with _ | ⟨a, m⟩
  · simp
  · have hm : l.dropWhile Char.isWhitespace =
        a :: (m ++ List.rtakeWhile Char.isWhitespace (l.dropWhile Char.isWhitespace)) := by
      conv_lhs => rw [← rdropWhile_append_rtakeWhile Char.isWhitespace
        (l.dropWhile Char.isWhitespace)]
      have : List.rdropWhile Char.isWhitespace (l.dropWhile Char.isWhitespace) = a :: m := hps
      rw [this, List.cons_append]
    have hhead := List.head?_dropWhile_not Char.isWhitespace l
    rw [hm] at hhead
    simp only [List.head?_cons] at hhead
    rw [List.dropWhile_cons, hhead]
    simp

lemma pyStripL_idem (l : List Char) : pyStripL (pyStripL l) = pyStripL l := by
  have h1 : pyStripL (pyStripL l) =
      List.rdropWhile Char.isWhitespace ((pyStripL l).dropWhile Char.isWhitespace) := rfl
  rw [h1, dropWhile_pyStripL]
  have h2 : pyStripL l =
      List.rdropWhile Char.isWhitespace (l.dropWhile Char.isWhitespace) := rfl
  rw [h2, List.rdropWhile_idempotent]

lemma pyStrip_data (s : String) : (pyStrip s).data = pyStripL s.data := rfl

lemma pyStrip_idem (s : String) : pyStrip (pyStrip s) = pyStrip s := by
  unfold pyStrip
  rw [data_asString, pyStripL_idem]

lemma format_phone_number_some (v : String) :
    format_phone_number (some v) =
      if ((pyStrip v).data.filter Char.isDigit).length = 10 then
        List.asString (((pyStrip v).data.filter Char.isDigit).take 3) ++ "-" ++
          List.asString ((((pyStrip v).data.filter Char.isDigit).drop 3).take 3) ++ "-" ++
          List.asString (((pyStrip v).data.filter Char.isDigit).drop 6)
      else if pyStrip v = "" then "" else pyStrip v := rfl

lemma pyStripL_cons_concat (a b : Char) (m : List Char) (ha : a.isWhitespace = false)
    (hb : b.isWhitespace = false) : pyStripL (a :: (m ++ [b])) = a :: (m ++ [b]) := by
  unfold pyStripL
  rw [List.dropWhile_cons, ha]
  simp only [Bool.false_eq_true, if_false]
  rw [show a :: (m ++ [b]) = (a :: m) ++ [b] from by simp]
  exact List.rdropWhile_concat_neg Char.isWhitespace (a :: m) b (by simp [hb])

lemma list_len_ten {α : Type} (d : List α) (h : d.length = 10) :
    ∃ a0 a1 a2 a3 a4 a5 a6 a7 a8 a9, d = [a0, a1, a2, a3, a4, a5, a6, a7, a8, a9] := by
  rcases d with _ | ⟨a0, d⟩
  · simp only [List.length_nil] at h
    omega
  rcases d with _ | ⟨a1, d⟩
  · simp only [List.length_cons, List.length_nil] at h
    omega
  rcases d with _ | ⟨a2, d⟩
  · simp only [List.length_cons, List.length_nil] at h
    omega
  rcases d with _ | ⟨a3, d⟩
  · simp only [List.length_cons, List.length_nil] at h
    omega
  rcases d with _ | ⟨a4, d⟩
  · simp only [List.length_cons, List.length_nil] at h
    omega
  rcases d with _ | ⟨a5, d⟩
  · simp only [List.length_cons, List.length_nil] at h
    omega
  rcases d with _ | ⟨a6, d⟩
  · simp only [List.length_cons, List.length_nil] at h
    omega
  rcases d with _ | ⟨a7, d⟩
  · simp only [List.length_cons, List.length_nil] at h
    omega
  rcases d with _ | ⟨a8, d⟩
  · simp only [List.length_cons, List.length_nil] at h
    omega
  rcases d with _ | ⟨a9, d⟩
  · simp only [List.length_cons, List.length_nil] at h
    omega
  rcases d with _ | ⟨a10, d⟩
  · exact ⟨a0, a1, a2, a3, a4, a5, a6, a7, a8, a9, rfl⟩
  · simp only [List.length_cons] at h
    omega

lemma ten_digits_fix (d : List Char) (hlen : d.length = 10)
    (hd : ∀ c ∈ d, c.isDigit = true) :
    pyStripL (d.take 3 ++ '-' :: ((d.drop 3).take 3 ++ '-' :: d.drop 6)) =
      d.take 3 ++ '-' :: ((d.drop 3).take 3 ++ '-' :: d.drop 6) ∧
    (d.take 3 ++ '-' :: ((d.drop 3).take 3 ++ '-' :: d.drop 6)).filter Char.isDigit = d := by
  obtain ⟨a0, a1, a2, a3, a4, a5, a6, a7, a8, a9, rfl⟩ := list_len_ten d hlen
  have h0 : a0.isDigit = true := hd a0 (by simp)
  have h1 : a1.isDigit = true := hd a1 (by simp)
  have h2 : a2.isDigit = true := hd a2 (by simp)
  have h3 : a3.isDigit = true := hd a3 (by simp)
  have h4 : a4.isDigit = true := hd a4 (by simp)
  have h5 : a5.isDigit = true := hd a5 (by simp)
  have h6 : a6.isDigit = true := hd a6 (by simp)
  have h7 : a7.isDigit = true := hd a7 (by simp)
  have h8 : a8.isDigit = true := hd a8 (by simp)
  have h9 : a9.isDigit = true := hd a9 (by simp)
  have hw0 : a0.isWhitespace = false := digit_not_ws h0
  have hw9 : a9.isWhitespace = false := digit_not_ws h9
  have hdashw : Char.isWhitespace '-' = false := by decide
  have hdashd : Char.isDigit '-' = false := by decide
  constructor
  · have hfix := pyStripL_cons_concat a0 a9 [a1, a2, '-', a3, a4, a5, '-', a6, a7, a8] hw0 hw9
    simpa using hfix
  · have hfil : [a0, a1, a2, '-', a3, a4, a5, '-', a6, a7, a8, a9].filter Char.isDigit =
        [a0, a1, a2, a3, a4, a5, a6, a7, a8, a9] := by
      simp [List.filter_cons, h0, h1, h2, h3, h4, h5, h6, h7, h8, h9, hdashd]
    simpa using hfil

lemma format_ten_fix (d : List Char) (hlen : d.length = 10)
    (hd : ∀ c ∈ d, c.isDigit = true) :
    format_phone_number (some (List.asString (d.take 3) ++ "-" ++
        List.asString ((d.drop 3).take 3) ++ "-" ++ List.asString (d.drop 6))) =
      List.asString (d.take 3) ++ "-" ++ List.asString ((d.drop 3).take 3) ++ "-" ++
        List.asString (d.drop 6) := by
  obtain ⟨hfix, hfil⟩ := ten_digits_fix d hlen hd
  have hdata : (List.asString (d.take 3) ++ "-" ++ List.asString ((d.drop 3).take 3) ++ "-" ++
      List.asString (d.drop 6)).data =
      d.take 3 ++ '-' :: ((d.drop 3).take 3 ++ '-' :: d.drop 6) := by
    simp [String.data_append, data_asString]
  have hstrip : pyStrip (List.asString (d.take 3) ++ "-" ++
      List.asString ((d.drop 3).take 3) ++ "-" ++ List.asString (d.drop 6)) =
      List.asString (d.take 3) ++ "-" ++ List.asString ((d.drop 3).take 3) ++ "-" ++
        List.asString (d.drop 6) := by
    apply String.ext
    rw [pyStrip_data, hdata, hfix]
  rw [format_phone_number_some, hstrip, hdata, hfil, if_pos hlen]

lemma tags_value_eq (ct : String) (r : Record) :
    tags_value ct r =
      String.intercalate ", "
        ((if ct ≠ "" then [ct] else []) ++
         (match r.Sellers with
          | some sv2 => if pyUpper (pyStrip sv2) = "X" then ["REAL INTENT.SELLERS"] else []
          | none => [])) := by
  cases hs : r.Sellers with
  | none =>
    by_cases hct : ct ≠ "" <;> (simp [tags_value, hs, hct]; try rfl)
  | some sv2 =>
    by_cases hct : ct ≠ "" <;> by_cases hx : pyUpper (pyStrip sv2) = "X" <;>
      (simp [tags_value, hs, hct, hx]; try rfl)

/-! ### Claim theorems: phone normalization -/

/-- Claim C4: `format_phone_number` returns the empty string on an absent
value; when the digit characters of the value number exactly ten it
returns them grouped `AAA-BBB-CCCC`; for any other digit count it returns
the trimmed original string unchanged. -/
theorem format_phone_number_spec :
    format_phone_number none = "" ∧
    (∀ s : String, (s.data.filter Char.isDigit).length = 10 →
      format_phone_number (some s) =
        List.asString ((s.data.filter Char.isDigit).take 3) ++ "-" ++
          List.asString (((s.data.filter Char.isDigit).drop 3).take 3) ++ "-" ++
          List.asString ((s.data.filter Char.isDigit).drop 6)) ∧
    (∀ s : String, (s.data.filter Char.isDigit).length ≠ 10 →
      format_phone_number (some s) = pyStrip s) := by
  refine ⟨rfl, ?_, ?_⟩
  · intro s hlen
    have hfd : (pyStrip s).data.filter Char.isDigit = s.data.filter Char.isDigit := by
      rw [pyStrip_data, filter_pyStripL]
    rw [format_phone_number_some, hfd, if_pos hlen]
  · intro s hlen
    have hfd : (pyStrip s).data.filter Char.isDigit = s.data.filter Char.isDigit := by
      rw [pyStrip_data, filter_pyStripL]
    rw [format_phone_number_some, hfd, if_neg hlen]
    by_cases hemp : pyStrip s = ""
    · rw [if_pos hemp, hemp]
    · rw [if_neg hemp]

/-- Witness for C4: the ten-digit case on a concrete phone string with
punctuation, and the non-ten-digit case on a short string. -/
theorem format_phone_number_spec_witness :
    format_phone_number (some " (555) 123-4567 ") = "555-123-4567" ∧
    format_phone_number (some " 12345 ") = "12345" := by
  constructor
  · have h := format_phone_number_spec.2.1 " (555) 123-4567 " (by decide)
    rw [h]
    decide
  · have h := format_phone_number_spec.2.2 " 12345 " (by decide)
    rw [h]
    decide

/-- Claim C9: `format_phone_number` is idempotent — feeding its output back
in returns the same string, for every input. -/
theorem format_phone_number_idem (x : Option String) :
    format_phone_number (some (format_phone_number x)) = format_phone_number x := by
  cases x with
  | none =>
    show format_phone_number (some "") = ""
    rfl
  | some v =>
    by_cases hlen : ((pyStrip v).data.filter Char.isDigit).length = 10
    · rw [format_phone_number_some v, if_pos hlen]
      exact format_ten_fix _ hlen (fun c hc => (List.mem_filter.mp hc).2)
    · rw [format_phone_number_some v, if_neg hlen]
      by_cases hemp : pyStrip v = ""
      · rw [if_pos hemp]
        rfl
      · rw [if_neg hemp]
        rw [format_phone_number_some (pyStrip v), pyStrip_idem]
        rw [if_neg hlen, if_neg hemp]

/-! ### Support lemmas for the header disambiguator -/

lemma goCount_nil (x : String) : goCount [] x = 0 := rfl

lemma goCount_bump (seen : List (String × Nat)) (h x : String) :
    goCount (bumpCount seen h) x =
      if x = h then goCount seen x + 1 else goCount seen x := by
  induction seen with
  | nil =>
    by_cases hx : x = h
    · subst hx
      simp [goCount, bumpCount, lookupCount]
    · simp [goCount, bumpCount, lookupCount, hx, Ne.symm hx]
  | cons kv rest ih =>
    obtain ⟨k, v⟩ := kv
    by_cases hkh : k = h
    · subst hkh
      by_cases hxk : x = k
      · subst hxk
        simp [goCount, bumpCount, lookupCount]
      · simp [goCount, bumpCount, lookupCount, hxk, Ne.symm hxk]
    · by_cases hkx : k = x
      · subst hkx
        have hxh : ¬ k = h := hkh
        simp [goCount, bumpCount, lookupCount, hkh, hxh]
      · have hkh2 : (k == h) = false := by simpa using hkh
        have hkx2 : (k == x) = false := by simpa using hkx
        simpa [goCount, bumpCount, lookupCount, hkh2, hkx2] using ih

lemma goSpec_length (headers : List String) :
    ∀ cnt, (goSpec headers cnt).length = headers.length := by
  induction headers with
  | nil => intro cnt; rfl
  | cons h rest ih => intro cnt; simp [goSpec, ih]

lemma go_eq_goSpec (headers : List String) :
    ∀ seen, get_unique_headers_go headers seen = goSpec headers (goCount seen) := by
  induction headers with
  | nil => intro seen; rfl
  | cons h rest ih =>
    intro seen
    have hbump : (fun x => if x = h then goCount seen x + 1 else goCount seen x) =
        goCount (bumpCount seen h) := by
      funext x
      rw [goCount_bump]
    cases hlook : lookupCount seen h with
    | none =>
      have hcnt : goCount seen h = 0 := by simp [goCount, hlook]
      simp only [get_unique_headers_go, goSpec, hlook, ih, hbump, hcnt]
      simp
    | some count =>
      have hcnt : goCount seen h = count := by simp [goCount, hlook]
      by_cases hc0 : count = 0
      · subst hc0
        simp only [get_unique_headers_go, goSpec, hlook, ih, hbump, hcnt]
        simp
      · simp only [get_unique_headers_go, goSpec, hlook, ih, hbump, hcnt, if_neg hc0]

lemma goSpec_getD (headers : List String) :
    ∀ cnt i, i < headers.length →
      (goSpec headers cnt).getD i "" =
        if cnt (headers.getD i "") + (headers.take i).count (headers.getD i "") = 0
        then headers.getD i ""
        else headers.getD i "" ++ "." ++
          toString (cnt (headers.getD i "") + (headers.take i).count (headers.getD i "")) := by
  induction headers with
  | nil =>
    intro cnt i hi
    simp at hi
  | cons h rest ih =>
    intro cnt i hi
    cases i with
    | zero =>
      simp [goSpec]
    | succ j =>
      have hj : j < rest.length := by simpa using hi
      have hrec := ih (fun x => if x = h then cnt x + 1 else cnt x) j hj
      simp only [goSpec, List.getD_cons_succ]
      rw [hrec]
      simp only [List.take_succ_cons, List.count_cons]
      by_cases hx : rest.getD j "" = h
      · rw [if_pos hx]
        have hbx : (h == rest.getD j "") = true := by
          rw [hx]
          simp
        rw [hbx]
        simp [Nat.add_assoc, Nat.add_comm, Nat.add_left_comm]
      · rw [if_neg hx]
        have hbx : (h == rest.getD j "") = false := by
          simp only [beq_eq_false_iff_ne, ne_eq]
          intro he
          exact hx he.symm
        rw [hbx]
        simp

/-- Claim C3: `get_unique_headers` preserves length, leaves the first
occurrence of each label unchanged, suffixes every later occurrence with a
dot and the 1-based count of prior sightings, and in particular maps
`["A","B","A","A"]` to `["A","B","A.1","A.2"]`. -/
theorem get_unique_headers_spec (headers : List String) :
    (get_unique_headers headers).length = headers.length ∧
    (∀ i, i < headers.length →
      (get_unique_headers headers).getD i "" =
        if (headers.take i).count (headers.getD i "") = 0 then headers.getD i ""
        else headers.getD i "" ++ "." ++
          toString ((headers.take i).count (headers.getD i ""))) ∧
    get_unique_headers ["A", "B", "A", "A"] = ["A", "B", "A.1", "A.2"] := by
  have hgo : get_unique_headers headers = goSpec headers (goCount []) :=
    go_eq_goSpec headers []
  have hcnt0 : goCount ([] : List (String × Nat)) = fun _ => 0 := by
    funext x
    rfl
  refine ⟨?_, ?_, by decide⟩
  · rw [hgo]
    exact goSpec_length headers _
  · intro i hi
    rw [hgo, hcnt0]
    have hg := goSpec_getD headers (fun _ => 0) i hi
    rw [hg]
    simp

/-- Witness for C3: the third occurrence of `"A"` in `["A","B","A","A"]`
is emitted as `"A.2"`. -/
theorem get_unique_headers_spec_witness :
    (get_unique_headers ["A", "B", "A", "A"]).getD 3 "" = "A.2" := by
  have h := (get_unique_headers_spec ["A", "B", "A", "A"]).2.1 3 (by decide)
  rw [h]
  decide

/-! ### Support lemmas for row positions -/

lemma KW_len : KW_TEMPLATE_HEADERS.length = 55 := rfl

lemma length_row_names (r : Record) (rd : List String) :
    (row_names r rd).length = rd.length := by
  simp [row_names]

lemma length_row_phones (r : Record) (rd : List String) :
    (row_phones r rd).length = rd.length := by
  cases hp : r.phone_1 <;> cases hq : r.phone_2 <;> simp [row_phones, hp, hq]

lemma length_row_emails (r : Record) (rd : List String) :
    (row_emails r rd).length = rd.length := by
  cases hp : r.email_1 <;> cases hq : r.email_2 <;> simp [row_emails, hp, hq]

lemma length_row_address (r : Record) (rd : List String) :
    (row_address r rd).length = rd.length := by
  unfold row_address
  by_cases h : get_val r.address ≠ "" <;> simp [h]

lemma length_row_meta (ct sv : String) (r : Record) (rd : List String) :
    (row_meta ct sv r rd).length = rd.length := by
  simp [row_meta]

lemma getElem?_row_names_ne (r : Record) (rd : List String) (j : Nat)
    (h0 : j ≠ 0) (h2 : j ≠ 2) : (row_names r rd)[j]? = rd[j]? := by
  simp [row_names, Ne.symm h0, Ne.symm h2]

lemma getElem?_row_phones_ne (r : Record) (rd : List String) (j : Nat)
    (h9 : j ≠ 9) (h10 : j ≠ 10) (h11 : j ≠ 11) : (row_phones r rd)[j]? = rd[j]? := by
  cases hp : r.phone_1 <;> cases hq : r.phone_2 <;>
    simp [row_phones, hp, hq, Ne.symm h9, Ne.symm h10, Ne.symm h11]

lemma getElem?_row_emails_ne (r : Record) (rd : List String) (j : Nat)
    (h17 : j ≠ 17) (h18 : j ≠ 18) (h19 : j ≠ 19) : (row_emails r rd)[j]? = rd[j]? := by
  cases hp : r.email_1 <;> cases hq : r.email_2 <;>
    simp [row_emails, hp, hq, Ne.symm h17, Ne.symm h18, Ne.symm h19]

lemma getElem?_row_address_ne (r : Record) (rd : List String) (j : Nat)
    (h23 : j ≠ 23) (h25 : j ≠ 25) (h26 : j ≠ 26) (h27 : j ≠ 27) (h28 : j ≠ 28)
    (h29 : j ≠ 29) : (row_address r rd)[j]? = rd[j]? := by
  unfold row_address
  by_cases h : get_val r.address ≠ "" <;>
    simp [h, Ne.symm h23, Ne.symm h25, Ne.symm h26, Ne.symm h27, Ne.symm h28, Ne.symm h29]

lemma getElem?_row_meta_ne (ct sv : String) (r : Record) (rd : List String) (j : Nat)
    (h47 : j ≠ 47) (h48 : j ≠ 48) (h49 : j ≠ 49) : (row_meta ct sv r rd)[j]? = rd[j]? := by
  simp [row_meta, Ne.symm h47, Ne.symm h48, Ne.symm h49]

lemma getElem?_row_names_0 (r : Record) (rd : List String) (h : 0 < rd.length) :
    (row_names r rd)[0]? = some (get_val r.first_name) := by
  simp [row_names, h]

lemma getElem?_row_names_2 (r : Record) (rd : List String) (h : 2 < rd.length) :
    (row_names r rd)[2]? = some (get_val r.last_name) := by
  simp [row_names, h]

lemma getElem?_row_phones_9 (r : Record) (rd : List String) (h : 9 < rd.length) :
    (row_phones r rd)[9]? =
      match r.phone_1 with
      | some p1 => some (format_phone_number (some p1))
      | none => rd[9]? := by
  cases hp : r.phone_1 <;> cases hq : r.phone_2 <;> simp [row_phones, hp, hq, h]

lemma getElem?_row_phones_10 (r : Record) (rd : List String) (h : 10 < rd.length) :
    (row_phones r rd)[10]? =
      match r.phone_1 with
      | some _ => some "Y"
      | none => rd[10]? := by
  cases hp : r.phone_1 <;> cases hq : r.phone_2 <;> simp [row_phones, hp, hq, h]

lemma getElem?_row_phones_11 (r : Record) (rd : List String) (h : 11 < rd.length) :
    (row_phones r rd)[11]? =
      match r.phone_2 with
      | some p2 => some (format_phone_number (some p2))
      | none => rd[11]? := by
  cases hp : r.phone_1 <;> cases hq : r.phone_2 <;> simp [row_phones, hp, hq, h]

lemma getElem?_row_emails_17 (r : Record) (rd : List String) (h : 17 < rd.length) :
    (row_emails r rd)[17]? =
      match r.email_1 with
      | some e1 => some (pyStrip e1)
      | none => rd[17]? := by
  cases hp : r.email_1 <;> cases hq : r.email_2 <;> simp [row_emails, hp, hq, h]

lemma getElem?_row_emails_18 (r : Record) (rd : List String) (h : 18 < rd.length) :
    (row_emails r rd)[18]? =
      match r.email_1 with
      | some _ => some "Y"
      | none => rd[18]? := by
  cases hp : r.email_1 <;> cases hq : r.email_2 <;> simp [row_emails, hp, hq, h]

lemma getElem?_row_emails_19 (r : Record) (rd : List String) (h : 19 < rd.length) :
    (row_emails r rd)[19]? =
      match r.email_2 with
      | some e2 => some (pyStrip e2)
      | none => rd[19]? := by
  cases hp : r.email_1 <;> cases hq : r.email_2 <;> simp [row_emails, hp, hq, h]

lemma getElem?_row_address_23 (r : Record) (rd : List String) (h : 23 < rd.length) :
    (row_address r rd)[23]? =
      if get_val r.address ≠ "" then some (get_val r.address) else rd[23]? := by
  unfold row_address
  by_cases ha : get_val r.address ≠ "" <;> simp [ha, h]

lemma getElem?_row_address_25 (r : Record) (rd : List String) (h : 25 < rd.length) :
    (row_address r rd)[25]? =
      if get_val r.address ≠ "" then some (get_val r.city) else rd[25]? := by
  unfold row_address
  by_cases ha : get_val r.address ≠ "" <;> simp [ha, h]

lemma getElem?_row_address_26 (r : Record) (rd : List String) (h : 26 < rd.length) :
    (row_address r rd)[26]? =
      if get_val r.address ≠ "" then some (get_val r.state) else rd[26]? := by
  unfold row_address
  by_cases ha : get_val r.address ≠ "" <;> simp [ha, h]

lemma getElem?_row_address_27 (r : Record) (rd : List String) (h : 27 < rd.length) :
    (row_address r rd)[27]? =
      if get_val r.address ≠ "" then some (get_val r.zip_code) else rd[27]? := by
  unfold row_address
  by_cases ha : get_val r.address ≠ "" <;> simp [ha, h]

lemma getElem?_row_address_28 (r : Record) (rd : List String) (h : 28 < rd.length) :
    (row_address r rd)[28]? =
      if get_val r.address ≠ "" then some "USA" else rd[28]? := by
  unfold row_address
  by_cases ha : get_val r.address ≠ "" <;> simp [ha, h]

lemma getElem?_row_address_29 (r : Record) (rd : List String) (h : 29 < rd.length) :
    (row_address r rd)[29]? =
      if get_val r.address ≠ "" then some "Home" else rd[29]? := by
  unfold row_address
  by_cases ha : get_val r.address ≠ "" <;> simp [ha, h]

lemma getElem?_row_meta_47 (ct sv : String) (r : Record) (rd : List String)
    (h : 47 < rd.length) : (row_meta ct sv r rd)[47]? = some (tags_value ct r) := by
  simp [row_meta, h]

lemma getElem?_row_meta_48 (ct sv : String) (r : Record) (rd : List String)
    (h : 48 < rd.length) : (row_meta ct sv r rd)[48]? = some sv := by
  simp [row_meta, h]

lemma getElem?_row_meta_49 (ct sv : String) (r : Record) (rd : List String)
    (h : 49 < rd.length) : (row_meta ct sv r rd)[49]? = some (get_val r.insight) := by
  simp [row_meta, h]

lemma base_getElem (j : Nat) (hj : j < 55) :
    (List.replicate KW_TEMPLATE_HEADERS.length ("" : String))[j]? = some "" := by
  rw [KW_len]
  exact List.getElem?_replicate_of_lt hj

lemma map_record_length (ct sv : String) (r : Record) :
    (map_record ct sv r).length = 55 := by
  simp [map_record, length_row_meta, length_row_address, length_row_emails,
    length_row_phones, length_row_names, KW_len]

lemma map_record_getD_0 (ct sv : String) (r : Record) :
    (map_record ct sv r).getD 0 "" = get_val r.first_name := by
  have h1 : (map_record ct sv r)[0]? = some (get_val r.first_name) := by
    simp only [map_record]
    rw [getElem?_row_meta_ne ct sv r _ 0 (by decide) (by decide) (by decide)]
    rw [getElem?_row_address_ne r _ 0 (by decide) (by decide) (by decide) (by decide) (by decide) (by decide)]
    rw [getElem?_row_emails_ne r _ 0 (by decide) (by decide) (by decide)]
    rw [getElem?_row_phones_ne r _ 0 (by decide) (by decide) (by decide)]
    rw [getElem?_row_names_0 r _ (by simp [KW_len])]
  simp [h1]

lemma map_record_getD_2 (ct sv : String) (r : Record) :
    (map_record ct sv r).getD 2 "" = get_val r.last_name := by
  have h1 : (map_record ct sv r)[2]? = some (get_val r.last_name) := by
    simp only [map_record]
    rw [getElem?_row_meta_ne ct sv r _ 2 (by decide) (by decide) (by decide)]
    rw [getElem?_row_address_ne r _ 2 (by decide) (by decide) (by decide) (by decide) (by decide) (by decide)]
    rw [getElem?_row_emails_ne r _ 2 (by decide) (by decide) (by decide)]
    rw [getElem?_row_phones_ne r _ 2 (by decide) (by decide) (by decide)]
    rw [getElem?_row_names_2 r _ (by simp [KW_len])]
  simp [h1]

lemma map_record_getD_9 (ct sv : String) (r : Record) :
    (map_record ct sv r).getD 9 "" =
      match r.phone_1 with
      | some p1 => format_phone_number (some p1)
      | none => "" := by
  have h1 := getElem?_row_phones_9 r (row_names r (List.replicate KW_TEMPLATE_HEADERS.length "")) (by simp [length_row_address, length_row_emails, length_row_phones, length_row_names, KW_len])
  have h2 : (map_record ct sv r)[9]? =
      (row_phones r (row_names r (List.replicate KW_TEMPLATE_HEADERS.length "")))[9]? := by
    simp only [map_record]
    rw [getElem?_row_meta_ne ct sv r _ 9 (by decide) (by decide) (by decide)]
    rw [getElem?_row_address_ne r _ 9 (by decide) (by decide) (by decide) (by decide) (by decide) (by decide)]
    rw [getElem?_row_emails_ne r _ 9 (by decide) (by decide) (by decide)]
  rw [List.getD_eq_getElem?_getD, h2, h1]
  cases hp : r.phone_1 <;>
    simp [hp, getElem?_row_names_ne r _ 9 (by decide) (by decide), base_getElem 9 (by decide)]

lemma map_record_getD_10 (ct sv : String) (r : Record) :
    (map_record ct sv r).getD 10 "" =
      match r.phone_1 with
      | some _ => "Y"
      | none => "" := by
  have h1 := getElem?_row_phones_10 r (row_names r (List.replicate KW_TEMPLATE_HEADERS.length "")) (by simp [length_row_address, length_row_emails, length_row_phones, length_row_names, KW_len])
  have h2 : (map_record ct sv r)[10]? =
      (row_phones r (row_names r (List.replicate KW_TEMPLATE_HEADERS.length "")))[10]? := by
    simp only [map_record]
    rw [getElem?_row_meta_ne ct sv r _ 10 (by decide) (by decide) (by decide)]
    rw [getElem?_row_address_ne r _ 10 (by decide) (by decide) (by decide) (by decide) (by decide) (by decide)]
    rw [getElem?_row_emails_ne r _ 10 (by decide) (by decide) (by decide)]
  rw [List.getD_eq_getElem?_getD, h2, h1]
  cases hp : r.phone_1 <;>
    simp [hp, getElem?_row_names_ne r _ 10 (by decide) (by decide), base_getElem 10 (by decide)]

lemma map_record_getD_11 (ct sv : String) (r : Record) :
    (map_record ct sv r).getD 11 "" =
      match r.phone_2 with
      | some p2 => format_phone_number (some p2)
      | none => "" := by
  have h1 := getElem?_row_phones_11 r (row_names r (List.replicate KW_TEMPLATE_HEADERS.length "")) (by simp [length_row_address, length_row_emails, length_row_phones, length_row_names, KW_len])
  have h2 : (map_record ct sv r)[11]? =
      (row_phones r (row_names r (List.replicate KW_TEMPLATE_HEADERS.length "")))[11]? := by
    simp only [map_record]
    rw [getElem?_row_meta_ne ct sv r _ 11 (by decide) (by decide) (by decide)]
    rw [getElem?_row_address_ne r _ 11 (by decide) (by decide) (by decide) (by decide) (by decide) (by decide)]
    rw [getElem?_row_emails_ne r _ 11 (by decide) (by decide) (by decide)]
  rw [List.getD_eq_getElem?_getD, h2, h1]
  cases hp : r.phone_2 <;>
    simp [hp, getElem?_row_names_ne r _ 11 (by decide) (by decide), base_getElem 11 (by decide)]

lemma map_record_getD_23 (ct sv : String) (r : Record) :
    (map_record ct sv r).getD 23 "" =
      if get_val r.address ≠ "" then get_val r.address else "" := by
  have h1 : (map_record ct sv r)[23]? =
      if get_val r.address ≠ "" then some (get_val r.address) else some "" := by
    simp only [map_record]
    rw [getElem?_row_meta_ne ct sv r _ 23 (by decide) (by decide) (by decide)]
    rw [getElem?_row_address_23 r _ (by simp [length_row_emails, length_row_phones, length_row_names, KW_len])]
    rw [getElem?_row_emails_ne r _ 23 (by decide) (by decide) (by decide)]
    rw [getElem?_row_phones_ne r _ 23 (by decide) (by decide) (by decide)]
    rw [getElem?_row_names_ne r _ 23 (by decide) (by decide)]
    rw [base_getElem 23 (by decide)]
  by_cases ha : get_val r.address ≠ "" <;> simp [h1, ha]

lemma map_record_getD_25 (ct sv : String) (r : Record) :
    (map_record ct sv r).getD 25 "" =
      if get_val r.address ≠ "" then get_val r.city else "" := by
  have h1 : (map_record ct sv r)[25]? =
      if get_val r.address ≠ "" then some (get_val r.city) else some "" := by
    simp only [map_record]
    rw [getElem?_row_meta_ne ct sv r _ 25 (by decide) (by decide) (by decide)]
    rw [getElem?_row_address_25 r _ (by simp [length_row_emails, length_row_phones, length_row_names, KW_len])]
    rw [getElem?_row_emails_ne r _ 25 (by decide) (by decide) (by decide)]
    rw [getElem?_row_phones_ne r _ 25 (by decide) (by decide) (by decide)]
    rw [getElem?_row_names_ne r _ 25 (by decide) (by decide)]
    rw [base_getElem 25 (by decide)]
  by_cases ha : get_val r.address ≠ "" <;> simp [h1, ha]

lemma map_record_getD_26 (ct sv : String) (r : Record) :
    (map_record ct sv r).getD 26 "" =
      if get_val r.address ≠ "" then get_val r.state else "" := by
  have h1 : (map_record ct sv r)[26]? =
      if get_val r.address ≠ "" then some (get_val r.state) else some "" := by
    simp only [map_record]
    rw [getElem?_row_meta_ne ct sv r _ 26 (by decide) (by decide) (by decide)]
    rw [getElem?_row_address_26 r _ (by simp [length_row_emails, length_row_phones, length_row_names, KW_len])]
    rw [getElem?_row_emails_ne r _ 26 (by decide) (by decide) (by decide)]
    rw [getElem?_row_phones_ne r _ 26 (by decide) (by decide) (by decide)]
    rw [getElem?_row_names_ne r _ 26 (by decide) (by decide)]
    rw [base_getElem 26 (by decide)]
  by_cases ha : get_val r.address ≠ "" <;> simp [h1, ha]

lemma map_record_getD_27 (ct sv : String) (r : Record) :
    (map_record ct sv r).getD 27 "" =
      if get_val r.address ≠ "" then get_val r.zip_code else "" := by
  have h1 : (map_record ct sv r)[27]? =
      if get_val r.address ≠ "" then some (get_val r.zip_code) else some "" := by
    simp only [map_record]
    rw [getElem?_row_meta_ne ct sv r _ 27 (by decide) (by decide) (by decide)]
    rw [getElem?_row_address_27 r _ (by simp [length_row_emails, length_row_phones, length_row_names, KW_len])]
    rw [getElem?_row_emails_ne r _ 27 (by decide) (by decide) (by decide)]
    rw [getElem?_row_phones_ne r _ 27 (by decide) (by decide) (by decide)]
    rw [getElem?_row_names_ne r _ 27 (by decide) (by decide)]
    rw [base_getElem 27 (by decide)]
  by_cases ha : get_val r.address ≠ "" <;> simp [h1, ha]

lemma map_record_getD_28 (ct sv : String) (r : Record) :
    (map_record ct sv r).getD 28 "" =
      if get_val r.address ≠ "" then "USA" else "" := by
  have h1 : (map_record ct sv r)[28]? =
      if get_val r.address ≠ "" then some ("USA") else some "" := by
    simp only [map_record]
    rw [getElem?_row_meta_ne ct sv r _ 28 (by decide) (by decide) (by decide)]
    rw [getElem?_row_address_28 r _ (by simp [length_row_emails, length_row_phones, length_row_names, KW_len])]
    rw [getElem?_row_emails_ne r _ 28 (by decide) (by decide) (by decide)]
    rw [getElem?_row_phones_ne r _ 28 (by decide) (by decide) (by decide)]
    rw [getElem?_row_names_ne r _ 28 (by decide) (by decide)]
    rw [base_getElem 28 (by decide)]
  by_cases ha : get_val r.address ≠ "" <;> simp [h1, ha]

lemma map_record_getD_29 (ct sv : String) (r : Record) :
    (map_record ct sv r).getD 29 "" =
      if get_val r.address ≠ "" then "Home" else "" := by
  have h1 : (map_record ct sv r)[29]? =
      if get_val r.address ≠ "" then some ("Home") else some "" := by
    simp only [map_record]
    rw [getElem?_row_meta_ne ct sv r _ 29 (by decide) (by decide) (by decide)]
    rw [getElem?_row_address_29 r _ (by simp [length_row_emails, length_row_phones, length_row_names, KW_len])]
    rw [getElem?_row_emails_ne r _ 29 (by decide) (by decide) (by decide)]
    rw [getElem?_row_phones_ne r _ 29 (by decide) (by decide) (by decide)]
    rw [getElem?_row_names_ne r _ 29 (by decide) (by decide)]
    rw [base_getElem 29 (by decide)]
  by_cases ha : get_val r.address ≠ "" <;> simp [h1, ha]

lemma map_record_getD_47 (ct sv : String) (r : Record) :
    (map_record ct sv r).getD 47 "" = tags_value ct r := by
  have h1 : (map_record ct sv r)[47]? = some (tags_value ct r) := by
    simp only [map_record]
    rw [getElem?_row_meta_47 ct sv r _ (by simp [length_row_address, length_row_emails, length_row_phones, length_row_names, KW_len])]
  simp [h1]

lemma map_record_getD_untouched (ct sv : String) (r : Record) (j : Nat) (hj : j < 55)
    (h : j ∉ ([0, 2, 9, 10, 11, 17, 18, 19, 23, 25, 26, 27, 28, 29, 47, 48, 49] : List Nat)) :
    (map_record ct sv r).getD j "" = "" := by
  obtain ⟨h0, h2, h9, h10, h11, h17, h18, h19, h23, h25, h26, h27, h28, h29, h47, h48, h49⟩ :
      j ≠ 0 ∧ j ≠ 2 ∧ j ≠ 9 ∧ j ≠ 10 ∧ j ≠ 11 ∧ j ≠ 17 ∧ j ≠ 18 ∧ j ≠ 19 ∧ j ≠ 23 ∧
        j ≠ 25 ∧ j ≠ 26 ∧ j ≠ 27 ∧ j ≠ 28 ∧ j ≠ 29 ∧ j ≠ 47 ∧ j ≠ 48 ∧ j ≠ 49 := by
    simpa [not_or] using h
  have h1 : (map_record ct sv r)[j]? = some "" := by
    simp only [map_record]
    rw [getElem?_row_meta_ne ct sv r _ j h47 h48 h49]
    rw [getElem?_row_address_ne r _ j h23 h25 h26 h27 h28 h29]
    rw [getElem?_row_emails_ne r _ j h17 h18 h19]
    rw [getElem?_row_phones_ne r _ j h9 h10 h11]
    rw [getElem?_row_names_ne r _ j h0 h2]
    rw [base_getElem j hj]
  simp [h1]

/-! ### Claim theorems: row shape and positions -/

/-- Counterexample to claim C1 as stated: at the all-absent record with
empty run parameters, the output row does not have 53 positions (it has
55). -/
theorem map_record_not_53 :
    (map_record "" "" {}).length = 55 ∧ (map_record "" "" {}).length ≠ 53 := by
  have h := map_record_length "" "" {}
  exact ⟨h, by rw [h]; decide⟩

/-- Claim C1 (amended): for every record and run parameters, the output
row has exactly 55 positions. -/
theorem map_record_length_55 (ct sv : String) (r : Record) :
    (map_record ct sv r).length = 55 :=
  map_record_length ct sv r

/-- Claim C8: every row of a successful conversion has exactly as many
values as the output schema constant has header labels. -/
theorem convert_row_length (ct sv : String) (t : InputTable)
    (rows : List (List String)) (hok : convert ct sv t = Except.ok rows) :
    ∀ row ∈ rows, row.length = KW_TEMPLATE_HEADERS.length := by
  simp only [convert] at hok
  by_cases hm : (REQUIRED_COLUMNS.filter fun c => !(t.columns.contains c)) ≠ []
  · rw [if_pos hm] at hok
    cases hok
  · rw [if_neg hm] at hok
    cases hok
    intro row hrow
    obtain ⟨r, _, rfl⟩ := List.mem_map.mp hrow
    rw [map_record_length, KW_len]

/-- Witness for C8: a one-record conversion, its row checked against the
schema length. -/
theorem convert_row_length_witness :
    (map_record "t" "Real Intent" {}).length = KW_TEMPLATE_HEADERS.length :=
  convert_row_length "t" "Real Intent" ⟨["first_name", "last_name"], [{}]⟩
    [map_record "t" "Real Intent" {}] (by rfl) (map_record "t" "Real Intent" {})
    (by simp)

/-- Counterexample to claim C2 as stated: a record whose only phone is
`phone_2` is mapped with no "Y" at any phone companion position, so the
first present phone is not marked primary. -/
theorem primary_mark_counterexample :
    ({ phone_2 := some "5551234567" } : Record).phone_2.isSome = true ∧
    (map_record "" "" { phone_2 := some "5551234567" }).getD 10 "" ≠ "Y" ∧
    (map_record "" "" { phone_2 := some "5551234567" }).getD 12 "" ≠ "Y" ∧
    (map_record "" "" { phone_2 := some "5551234567" }).getD 14 "" ≠ "Y" ∧
    (map_record "" "" { phone_2 := some "5551234567" }).getD 16 "" ≠ "Y" := by
  refine ⟨rfl, ?_, ?_, ?_, ?_⟩ <;> decide

/-- Claim C2 (amended): at most one phone companion position ever holds
"Y"; the mark sits at the Cell Phone companion (position 10) exactly when
`phone_1` is present, and the Home/Work/Other Phone companions
(positions 12, 14, 16) are never marked — a record with only `phone_2`
gets no primary mark. -/
theorem primary_mark_spec (ct sv : String) (r : Record) :
    ((map_record ct sv r).getD 10 "" = "Y" ↔ r.phone_1.isSome = true) ∧
    (map_record ct sv r).getD 12 "" = "" ∧
    (map_record ct sv r).getD 14 "" = "" ∧
    (map_record ct sv r).getD 16 "" = "" := by
  refine ⟨?_, ?_, ?_, ?_⟩
  · rw [map_record_getD_10]
    cases hp : r.phone_1 <;> simp [hp]
  · exact map_record_getD_untouched ct sv r 12 (by decide) (by decide)
  · exact map_record_getD_untouched ct sv r 14 (by decide) (by decide)
  · exact map_record_getD_untouched ct sv r 16 (by decide) (by decide)

/-- Claim C5: the Tags position is the comma-space join of the list built
from the caller tag when non-empty followed by "REAL INTENT.SELLERS"
exactly when the Sellers field trims and upper-cases to "X" (empty string
when the list is empty); in particular Sellers="x" with tag "seller"
yields "seller, REAL INTENT.SELLERS" while Sellers="Y" yields "seller". -/
theorem tags_spec (ct sv : String) (r : Record) :
    (map_record ct sv r).getD 47 "" =
      String.intercalate ", "
        ((if ct ≠ "" then [ct] else []) ++
         (match r.Sellers with
          | some sv2 => if pyUpper (pyStrip sv2) = "X" then ["REAL INTENT.SELLERS"] else []
          | none => [])) ∧
    (map_record "seller" sv { Sellers := some "x" }).getD 47 "" =
      "seller, REAL INTENT.SELLERS" ∧
    (map_record "seller" sv { Sellers := some "Y" }).getD 47 "" = "seller" := by
  refine ⟨?_, ?_, ?_⟩
  · rw [map_record_getD_47, tags_value_eq]
  · rw [map_record_getD_47]
    decide
  · rw [map_record_getD_47]
    decide

/-- Claim C7: the first address block is filled exactly when the trimmed
address is non-empty (line one from `address`, City/State/Zip from their
fields, Country "USA", Label "Home", line two and the separator blank);
with an empty address the whole block stays empty even when city or state
are set; address blocks 2 and 3 (positions 31-46) are always empty. -/
theorem address_block_spec (ct sv : String) (r : Record) :
    (get_val r.address ≠ "" →
      (map_record ct sv r).getD 23 "" = get_val r.address ∧
      (map_record ct sv r).getD 24 "" = "" ∧
      (map_record ct sv r).getD 25 "" = get_val r.city ∧
      (map_record ct sv r).getD 26 "" = get_val r.state ∧
      (map_record ct sv r).getD 27 "" = get_val r.zip_code ∧
      (map_record ct sv r).getD 28 "" = "USA" ∧
      (map_record ct sv r).getD 29 "" = "Home" ∧
      (map_record ct sv r).getD 30 "" = "") ∧
    (get_val r.address = "" →
      ∀ j, 23 ≤ j → j ≤ 30 → (map_record ct sv r).getD j "" = "") ∧
    (∀ j, 31 ≤ j → j ≤ 46 → (map_record ct sv r).getD j "" = "") := by
  refine ⟨?_, ?_, ?_⟩
  · intro ha
    refine ⟨?_, ?_, ?_, ?_, ?_, ?_, ?_, ?_⟩
    · rw [map_record_getD_23, if_pos ha]
    · exact map_record_getD_untouched ct sv r 24 (by decide) (by decide)
    · rw [map_record_getD_25, if_pos ha]
    · rw [map_record_getD_26, if_pos ha]
    · rw [map_record_getD_27, if_pos ha]
    · rw [map_record_getD_28, if_pos ha]
    · rw [map_record_getD_29, if_pos ha]
    · exact map_record_getD_untouched ct sv r 30 (by decide) (by decide)
  · intro ha j hj1 hj2
    interval_cases j
    · rw [map_record_getD_23, if_neg (by simp [ha])]
    · exact map_record_getD_untouched ct sv r 24 (by decide) (by decide)
    · rw [map_record_getD_25, if_neg (by simp [ha])]
    · rw [map_record_getD_26, if_neg (by simp [ha])]
    · rw [map_record_getD_27, if_neg (by simp [ha])]
    · rw [map_record_getD_28, if_neg (by simp [ha])]
    · rw [map_record_getD_29, if_neg (by simp [ha])]
    · exact map_record_getD_untouched ct sv r 30 (by decide) (by decide)
  · intro j hj1 hj2
    interval_cases j <;> exact map_record_getD_untouched ct sv r _ (by decide) (by decide)

/-- Witness for C7: a populated address block on a concrete record, and an
empty block despite a non-empty city on another. -/
theorem address_block_spec_witness :
    (map_record "" "" { address := some "1 Main St", city := some "Springfield" }).getD
      23 "" = "1 Main St" ∧
    (map_record "" "" { city := some "Springfield" }).getD 25 "" = "" := by
  constructor
  · have h :=
      (address_block_spec "" ""
        { address := some "1 Main St", city := some "Springfield" }).1 (by decide)
    rw [h.1]
    decide
  · exact (address_block_spec "" "" { city := some "Springfield" }).2.1 (by decide) 25
      (by decide) (by decide)

/-! ### Claim theorems: batch-level validation -/

/-- Claim C6: a header missing one of the required field names makes the
conversion fail with exactly the list of missing required names and no
output rows; with both names present that error is never raised. -/
theorem convert_required_columns (ct sv : String) (t : InputTable) :
    (("first_name" ∉ t.columns ∨ "last_name" ∉ t.columns) →
      convert ct sv t =
        Except.error (REQUIRED_COLUMNS.filter (fun c => !(t.columns.contains c))) ∧
      (∀ c, c ∈ REQUIRED_COLUMNS.filter (fun c => !(t.columns.contains c)) ↔
        (c ∈ REQUIRED_COLUMNS ∧ c ∉ t.columns))) ∧
    ("first_name" ∈ t.columns → "last_name" ∈ t.columns →
      convert ct sv t = Except.ok (t.rows.map (map_record ct sv))) := by
  constructor
  · intro hmiss
    constructor
    · simp only [convert]
      have hne : (REQUIRED_COLUMNS.filter fun c => !(t.columns.contains c)) ≠ [] := by
        rcases hmiss with hm | hm
        · intro hcon
          have hmem : "first_name" ∈
              (REQUIRED_COLUMNS.filter fun c => !(t.columns.contains c)) :=
            List.mem_filter.mpr ⟨by simp [REQUIRED_COLUMNS], by simp [List.contains, hm]⟩
          rw [hcon] at hmem
          cases hmem
        · intro hcon
          have hmem : "last_name" ∈
              (REQUIRED_COLUMNS.filter fun c => !(t.columns.contains c)) :=
            List.mem_filter.mpr ⟨by simp [REQUIRED_COLUMNS], by simp [List.contains, hm]⟩
          rw [hcon] at hmem
          cases hmem
      rw [if_pos hne]
    · intro c
      constructor
      · intro hc
        have hc2 := List.mem_filter.mp hc
        refine ⟨hc2.1, ?_⟩
        have := hc2.2
        simpa [List.contains] using this
      · intro hc
        exact List.mem_filter.mpr ⟨hc.1, by simp [List.contains, hc.2]⟩
  · intro h1 h2
    simp only [convert]
    have hmiss : (REQUIRED_COLUMNS.filter fun c => !(t.columns.contains c)) = [] := by
      simp [REQUIRED_COLUMNS, List.filter_cons, List.contains, h1, h2]
    rw [hmiss]
    simp

/-- Witness for C6: omitting `last_name` from the header fails naming
exactly `last_name`; a header with both required names converts an empty
table successfully. -/
theorem convert_required_columns_witness :
    convert "" "Real Intent" ⟨["first_name", "city"], []⟩ =
      Except.error ["last_name"] ∧
    convert "" "Real Intent" ⟨["first_name", "last_name"], []⟩ = Except.ok [] := by
  constructor
  · have h := (convert_required_columns "" "Real Intent" ⟨["first_name", "city"], []⟩).1
      (by right; decide)
    rw [h.1]
    rfl
  · have h := (convert_required_columns "" "Real Intent"
      ⟨["first_name", "last_name"], []⟩).2 (by decide) (by decide)
    simpa using h

/-- Claim C10: with the two required names in the header, validation never
looks at per-record values — every record is mapped to a row, and a
missing or blank `first_name`/`last_name` value just yields an empty cell
at the name positions. -/
theorem record_values_not_validated (ct sv : String) (t : InputTable)
    (h1 : "first_name" ∈ t.columns) (h2 : "last_name" ∈ t.columns) :
    convert ct sv t = Except.ok (t.rows.map (map_record ct sv)) ∧
    (t.rows.map (map_record ct sv)).length = t.rows.length ∧
    (∀ r : Record, r.first_name = none → (map_record ct sv r).getD 0 "" = "") ∧
    (∀ r : Record, ∀ s, r.first_name = some s → pyStrip s = "" →
      (map_record ct sv r).getD 0 "" = "") ∧
    (∀ r : Record, r.last_name = none → (map_record ct sv r).getD 2 "" = "") ∧
    (∀ r : Record, ∀ s, r.last_name = some s → pyStrip s = "" →
      (map_record ct sv r).getD 2 "" = "") := by
  refine ⟨?_, by simp, ?_, ?_, ?_, ?_⟩
  · simp only [convert]
    have hmiss : (REQUIRED_COLUMNS.filter fun c => !(t.columns.contains c)) = [] := by
      simp [REQUIRED_COLUMNS, List.filter_cons, List.contains, h1, h2]
    rw [hmiss]
    simp
  · intro r hr
    rw [map_record_getD_0]
    simp [get_val, hr]
  · intro r s hr hs
    rw [map_record_getD_0, hr]
    simpa [get_val] using hs
  · intro r hr
    rw [map_record_getD_2]
    simp [get_val, hr]
  · intro r s hr hs
    rw [map_record_getD_2, hr]
    simpa [get_val] using hs

/-- Witness for C10: a header with both required names converts a record
whose `first_name` value is blank and whose `last_name` value is absent,
yielding empty name cells. -/
theorem record_values_not_validated_witness :
    convert "" "Real Intent" ⟨["first_name", "last_name"], [{ first_name := some " " }]⟩ =
      Except.ok [map_record "" "Real Intent" { first_name := some " " }] ∧
    (map_record "" "Real Intent" ({ first_name := some " " } : Record)).getD 0 "" = "" ∧
    (map_record "" "Real Intent" ({ first_name := some " " } : Record)).getD 2 "" = "" := by
  have h := record_values_not_validated "" "Real Intent"
    ⟨["first_name", "last_name"], [{ first_name := some " " }]⟩ (by decide) (by decide)
  refine ⟨by simpa using h.1, ?_, ?_⟩
  · exact h.2.2.2.1 { first_name := some " " } " " rfl (by decide)
  · exact h.2.2.2.2.1 { first_name := some " " } rfl

end KW
